import Mathlib

/-!
Shallow embedding of the framestack backend (Express + Firebase glue code):
the authentication middleware (`src/backend/src/middleware/auth.ts`), the
error constants (`src/backend/src/errors`), the auth controller
(`src/backend/src/controllers/authController.ts`), the auth routing table,
the Firebase auth service wrapper and the Firestore wrapper
(`src/backend/src/firestoreService.ts`).

JavaScript runtime values are modelled by `JsValue`; JS objects are
association lists of string keys; the external provider (Firebase) is an
abstract parameter (a verification oracle, a user store, a document store).
-/

set_option autoImplicit false

namespace Framestack

/-- A JavaScript runtime value, as far as the backend code inspects one:
`undefined`, `null`, booleans, numbers (modelled as integers), strings and
objects (association lists of named fields). -/
inductive JsValue where
  | undefined : JsValue
  | null : JsValue
  | bool : Bool → JsValue
  | num : Int → JsValue
  | str : String → JsValue
  | obj : List (String × JsValue) → JsValue

/-- A JS object as the backend manipulates it: a list of named fields. -/
abbrev Obj := List (String × JsValue)

/-- JavaScript truthiness: `undefined`, `null`, `false`, `0` and `""` are
falsy; every other value (including every object) is truthy. -/
def truthy : JsValue → Bool
  | .undefined => false
  | .null => false
  | .bool b => b
  | .num n => n != 0
  | .str s => s != ""
  | .obj _ => true

/-- JavaScript `typeof`. -/
def jsTypeof : JsValue → String
  | .undefined => "undefined"
  | .null => "object"
  | .bool _ => "boolean"
  | .num _ => "number"
  | .str _ => "string"
  | .obj _ => "object"

/-- Property read on an association-list object: first binding wins
(JS objects never hold a duplicate key). -/
def alookup {α : Type} : List (String × α) → String → Option α
  | [], _ => none
  | (k₀, v₀) :: rest, k => if k₀ = k then some v₀ else alookup rest k

/-- Property write on an association-list object: update the binding in
place when the key exists, append it otherwise (JS assignment semantics). -/
def asetKey {α : Type} : List (String × α) → String → α → List (String × α)
  | [], k, v => [(k, v)]
  | (k₀, v₀) :: rest, k, v =>
    if k₀ = k then (k₀, v) :: rest else (k₀, v₀) :: asetKey rest k v

/-- JS object spread `{ ...a, ...b }`: every field of `b` is assigned over
`a`, later assignments winning. -/
def objSpread {α : Type} (a b : List (String × α)) : List (String × α) :=
  b.foldl (fun acc kv => asetKey acc kv.1 kv.2) a

theorem alookup_asetKey {α : Type} (o : List (String × α)) (k : String) (v : α)
    (k' : String) :
    alookup (asetKey o k v) k' = if k' = k then some v else alookup o k' := by
  induction o with
  | nil =>
    simp only [asetKey, alookup]
    rcases eq_or_ne k k' with h | h
    · subst h; simp
    · simp [h, Ne.symm h]
  | cons hd tl ih =>
    obtain ⟨k₀, v₀⟩ := hd
    simp only [asetKey]
    by_cases h₀ : k₀ = k
    · subst h₀
      simp only [if_pos rfl, alookup]
      rcases eq_or_ne k₀ k' with h | h
      · subst h; simp
      · simp [h, Ne.symm h]
    · rw [if_neg h₀]
      simp only [alookup]
      by_cases h' : k₀ = k'
      · subst h'
        simp [h₀]
      · simp [h', ih]

theorem alookup_eq_none_of_not_mem {α : Type} (o : List (String × α)) (k : String)
    (h : k ∉ o.map Prod.fst) : alookup o k = none := by
  induction o with
  | nil => rfl
  | cons hd tl ih =>
    obtain ⟨k₀, v₀⟩ := hd
    simp only [List.map_cons, List.mem_cons] at h
    push_neg at h
    simp only [alookup]
    rw [if_neg (Ne.symm h.1)]
    exact ih h.2

theorem alookup_objSpread {α : Type} (a b : List (String × α)) (k : String)
    (hnd : (b.map Prod.fst).Nodup) :
    alookup (objSpread a b) k =
      match alookup b k with
      | some v => some v
      | none => alookup a k := by
  induction b generalizing a with
  | nil => simp [objSpread, alookup]
  | cons hd tl ih =>
    obtain ⟨k₁, v₁⟩ := hd
    have hstep : objSpread a ((k₁, v₁) :: tl) = objSpread (asetKey a k₁ v₁) tl := rfl
    simp only [List.map_cons, List.nodup_cons] at hnd
    rw [hstep, ih _ hnd.2]
    by_cases hk : k₁ = k
    · subst hk
      have : alookup tl k₁ = none := alookup_eq_none_of_not_mem tl k₁ hnd.1
      simp [this, alookup, alookup_asetKey]
    · simp only [alookup, if_neg hk]
      cases htl : alookup tl k with
      | some v => simp
      | none => simp [alookup_asetKey, Ne.symm hk]

/-- Object read used throughout: `alookup` specialised to `JsValue` fields. -/
def objLookup (o : Obj) (k : String) : Option JsValue := alookup o k

/-!
## Error constants — `src/backend/src/errors` (`AuthError`, `InternalError`)
-/

/-- A `CustomError`: a numeric code, an HTTP status and a message
(`src/backend/src/errors`). -/
structure CustomError where
  code : Nat
  status : Nat
  message : String
  deriving DecidableEq, Repr

namespace AuthError

def INVALID_TOKEN : CustomError := ⟨100, 401, "Invalid or expired authentication token"⟩

def NO_TOKEN_PROVIDED : CustomError := ⟨101, 401, "No authentication token provided"⟩

def USER_NOT_FOUND : CustomError := ⟨102, 404, "User not found"⟩

def USER_ALREADY_EXISTS : CustomError := ⟨103, 409, "A user with this email already exists"⟩

def WEAK_PASSWORD : CustomError := ⟨104, 400, "Password must be at least 6 characters"⟩

def INVALID_EMAIL : CustomError := ⟨105, 400, "The email address is invalid"⟩

def USER_DISABLED : CustomError := ⟨106, 403, "This user account has been disabled"⟩

def UNAUTHORIZED : CustomError := ⟨107, 403, "You are not authorized to perform this action"⟩

end AuthError

/-!
## Authentication middleware — `src/backend/src/middleware/auth.ts`
-/

/-- The decoded Firebase ID token attached to `req.user`: the subject's
`uid` plus the token's claims, read as object properties. -/
structure DecodedIdToken where
  uid : String
  claims : Obj

/-- `req.user?.[role]`: property read on the optional decoded token
(`undefined` when the token is absent or the claim is missing). -/
def userClaim (user : Option DecodedIdToken) (role : String) : JsValue :=
  match user with
  | none => .undefined
  | some u => (objLookup u.claims role).getD .undefined

/-- The slice of an Express `Request` the middleware reads and writes:
the `Authorization` header and the decoded `req.user`. -/
structure Request where
  authorization : Option String
  user : Option DecodedIdToken

/-- Outcome of one middleware invocation: either it writes a JSON error
response (`status`, `{error: message}`) and stops, or it calls `next()`
exactly once, passing the possibly-updated request downstream. -/
inductive MwResult where
  | respond : Nat → String → MwResult
  | proceed : Request → MwResult

/-- A middleware, as a function on the modelled request. -/
abbrev Middleware := Request → MwResult

/-- JS `String.prototype.startsWith`, on the string's character sequence. -/
def jsStartsWith (s pre : String) : Bool :=
  pre.data.isPrefixOf s.data

/-- `header.split("Bearer ")[1]`: JS `String.split` on the literal
separator, taking the second piece. -/
def bearerToken (header : String) : String :=
  (header.splitOn "Bearer ").getD 1 ""

/-- `requireAuth` (auth.ts lines 36-56): respond 401 `NO_TOKEN_PROVIDED`
unless the `Authorization` header starts with `"Bearer "`; otherwise verify
the token via the provider oracle `verify` (`none` models a rejected
promise), responding 401 `INVALID_TOKEN` on failure and setting `req.user`
and calling `next()` on success. -/
def requireAuth (verify : String → Option DecodedIdToken) : Middleware :=
  fun req =>
    match req.authorization with
    | none => .respond 401 AuthError.NO_TOKEN_PROVIDED.message
    | some header =>
      if jsStartsWith header "Bearer " then
        match verify (bearerToken header) with
        | some decoded => .proceed { req with user := some decoded }
        | none => .respond AuthError.INVALID_TOKEN.status AuthError.INVALID_TOKEN.message
      else
        .respond 401 AuthError.NO_TOKEN_PROVIDED.message

/-- `requireRole(role)` (auth.ts lines 64-75): respond 403 `UNAUTHORIZED`
unless `req.user?.[role]` is truthy; otherwise call `next()`. -/
def requireRole (role : String) : Middleware :=
  fun req =>
    if truthy (userClaim req.user role) then .proceed req
    else .respond AuthError.UNAUTHORIZED.status AuthError.UNAUTHORIZED.message

/-!
## Auth controller — `src/backend/src/controllers/authController.ts`

Each controller is modelled on the request fields it reads, with the
provider call's outcome passed as a parameter; the `Bool` (or `Option Int`)
component of the result records whether (and with which argument) the
provider API was actually invoked on that run.
-/

/-- A JSON response written by a controller: either an `{error: ...}`
payload or a success payload. -/
inductive CtrlResponse where
  | errorJson : Nat → String → CtrlResponse
  | json : Nat → Obj → CtrlResponse

/-- Outcome of `authService.createUser`: a created user record, or a
rejection carrying the Firebase error's optional `code` string. -/
inductive CreateOutcome where
  | success : JsValue → CreateOutcome
  | failure : Option String → CreateOutcome

/-- Outcome of a provider call that returns nothing (`setCustomClaims`,
`revokeRefreshTokens`, ...): fulfilled or rejected. -/
inductive ClaimsOutcome where
  | fulfilled : ClaimsOutcome
  | rejected : ClaimsOutcome

/-- Outcome of `authService.createSessionCookie`: the cookie string, or a
rejection. -/
inductive SessionOutcome where
  | ok : String → SessionOutcome
  | rejected : SessionOutcome

namespace authController

/-- `createUser` (authController.ts lines 55-85): 400 when `email` or
`password` is falsy (provider never called); otherwise the provider's
error `code` is pattern-matched to `USER_ALREADY_EXISTS`, `INVALID_EMAIL`
or `WEAK_PASSWORD`, any other failure giving a generic 500. The `Bool`
records whether `authService.createUser` was invoked. -/
def createUser (email password : JsValue) (provider : CreateOutcome) :
    CtrlResponse × Bool :=
  if !truthy email || !truthy password then
    (.errorJson 400 "Email and password are required", false)
  else
    match provider with
    | .success user => (.json 201 [("user", user)], true)
    | .failure code =>
      if code = some "auth/email-already-exists" then
        (.errorJson AuthError.USER_ALREADY_EXISTS.status AuthError.USER_ALREADY_EXISTS.message, true)
      else if code = some "auth/invalid-email" then
        (.errorJson AuthError.INVALID_EMAIL.status AuthError.INVALID_EMAIL.message, true)
      else if code = some "auth/weak-password" then
        (.errorJson AuthError.WEAK_PASSWORD.status AuthError.WEAK_PASSWORD.message, true)
      else
        (.errorJson 500 "Failed to create user", true)

/-- `setCustomClaims` (authController.ts lines 144-160): 400 when the
body's `claims` is falsy or not of JS type "object" (provider never
called); otherwise forward to the provider, a rejection giving 404
`USER_NOT_FOUND`. -/
def setCustomClaims (claims : JsValue) (provider : ClaimsOutcome) :
    CtrlResponse × Bool :=
  if !truthy claims || jsTypeof claims != "object" then
    (.errorJson 400 "Claims must be a valid object", false)
  else
    match provider with
    | .fulfilled => (.json 200 [("message", .str "Custom claims updated successfully")], true)
    | .rejected => (.errorJson AuthError.USER_NOT_FOUND.status AuthError.USER_NOT_FOUND.message, true)

/-- `const duration = typeof expiresIn === "number" ? expiresIn : 5*24*60*60*1000`
of `createSession` (authController.ts line 177). -/
def sessionDuration (expiresIn : JsValue) : Int :=
  match expiresIn with
  | .num n => n
  | _ => 5 * 24 * 60 * 60 * 1000

/-- `createSession` (authController.ts lines 166-185): 401 when `idToken`
is falsy; otherwise the session-cookie duration is `expiresIn` when that
field is a JS number and 5 days in milliseconds otherwise, and a provider
rejection gives 401 `INVALID_TOKEN`. The `Option Int` records the duration
passed to `authService.createSessionCookie` (`none` = not called). -/
def createSession (idToken expiresIn : JsValue) (provider : Int → SessionOutcome) :
    CtrlResponse × Option Int :=
  if !truthy idToken then
    (.errorJson 401 AuthError.NO_TOKEN_PROVIDED.message, none)
  else
    let duration : Int := sessionDuration expiresIn
    match provider duration with
    | .ok sessionCookie => (.json 200 [("sessionCookie", .str sessionCookie)], some duration)
    | .rejected => (.errorJson AuthError.INVALID_TOKEN.status AuthError.INVALID_TOKEN.message, some duration)

end authController

/-!
## Auth routes — `src/backend/src/routes/auth.ts` (authRouter)
-/

/-- The controller a route dispatches to. -/
inductive Controller where
  | createSession | getMe | listUsers | createUser | getUserByUid
  | updateUser | deleteUser | setCustomClaims | revokeTokens
  deriving DecidableEq, Repr

/-- A mounted route: HTTP method, path pattern, middleware chain, and the
controller at the end of the chain. -/
structure Route where
  method : String
  path : String
  chain : List Middleware
  controller : Controller

/-- Outcome of running a route's middleware chain: an error response
written by some middleware, or the controller actually executing on the
request the chain produced. -/
inductive RouteOutcome where
  | errorResponse : Nat → String → RouteOutcome
  | controllerRun : Request → RouteOutcome

/-- Express semantics of a middleware chain: each middleware either
responds (the chain stops, the controller never runs) or calls `next()`. -/
def runChain : List Middleware → Request → RouteOutcome
  | [], req => .controllerRun req
  | mw :: rest, req =>
    match mw req with
    | .respond status body => .errorResponse status body
    | .proceed req' => runChain rest req'

/-- The `/auth` router's mounting table, exactly as in the routing file:
`POST /session` is public, `GET /me` requires only `requireAuth`, and the
seven admin routes are guarded by `requireAuth` then `requireRole("admin")`. -/
def authRouter (verify : String → Option DecodedIdToken) : List Route :=
  [ ⟨"POST", "/session", [], .createSession⟩,
    ⟨"GET", "/me", [requireAuth verify], .getMe⟩,
    ⟨"GET", "/users", [requireAuth verify, requireRole "admin"], .listUsers⟩,
    ⟨"POST", "/user", [requireAuth verify, requireRole "admin"], .createUser⟩,
    ⟨"GET", "/user/:uid", [requireAuth verify, requireRole "admin"], .getUserByUid⟩,
    ⟨"PUT", "/user/:uid", [requireAuth verify, requireRole "admin"], .updateUser⟩,
    ⟨"DELETE", "/user/:uid", [requireAuth verify, requireRole "admin"], .deleteUser⟩,
    ⟨"POST", "/user/:uid/claims", [requireAuth verify, requireRole "admin"], .setCustomClaims⟩,
    ⟨"POST", "/user/:uid/revoke", [requireAuth verify, requireRole "admin"], .revokeTokens⟩ ]

/-!
## Auth service wrapper — custom-claims operations (authService)

The Firebase user store is modelled as an association list from uid to a
user record carrying its optional custom-claims object; `auth.getUser` and
`auth.setCustomUserClaims` reject (modelled `none`) for an unknown uid.
-/

/-- The slice of a Firebase `UserRecord` the claims operations touch. -/
structure UserRecord where
  customClaims : Option Obj

/-- The provider's user store, keyed by uid. -/
abbrev AuthStore := List (String × UserRecord)

namespace authService

/-- `authService.setCustomClaims`: `auth.setCustomUserClaims(uid, claims)`,
overwriting all existing claims. -/
def setCustomClaims (store : AuthStore) (uid : String) (claims : Obj) :
    Option AuthStore :=
  match alookup store uid with
  | none => none
  | some _ => some (asetKey store uid ⟨some claims⟩)

/-- `authService.mergeCustomClaims`: fetch the user, default missing
claims to `{}`, and write back `{ ...existing, ...claims }`. -/
def mergeCustomClaims (store : AuthStore) (uid : String) (claims : Obj) :
    Option AuthStore :=
  match alookup store uid with
  | none => none
  | some user =>
    let existing := user.customClaims.getD []
    some (asetKey store uid ⟨some (objSpread existing claims)⟩)

/-- `authService.clearCustomClaims`: `auth.setCustomUserClaims(uid, {})`. -/
def clearCustomClaims (store : AuthStore) (uid : String) : Option AuthStore :=
  match alookup store uid with
  | none => none
  | some _ => some (asetKey store uid ⟨some []⟩)

end authService

/-!
## Firestore wrapper — `src/backend/src/firestoreService.ts`

The provider is a `Firestore` record: `fetchDoc` models
`db.collection(path).doc(id).get()` (a snapshot with an existence flag)
and `runQuery` models executing a built-up `Query` object. The wrapper
builds the query exactly as the source does (order-by, cursor, limit,
where clauses) and post-processes snapshots with `snapshotToArray`.
-/

/-- A Firestore document snapshot: its ID, whether it exists, and its
data (meaningful only when it exists). -/
structure DocSnapshot where
  id : String
  /-- the snapshot's `exists` flag (`exists` is reserved in Lean) -/
  docExists : Bool
  data : Obj

/-- Query order direction (`"asc" | "desc"`). -/
inductive OrderDir where
  | asc | desc
  deriving DecidableEq, Repr

/-- `ListOptions` of firestoreService.ts: optional limit, order-by field,
order direction and pagination cursor document ID. -/
structure ListOptions where
  limit : Option Int := none
  orderBy : Option String := none
  orderDirection : Option OrderDir := none
  startAfterDocId : Option String := none

/-- A simple where-clause filter (`WhereFilter` in firestoreService.ts). -/
structure WhereFilter where
  field : String
  op : String
  value : JsValue

/-- A Firestore composite `Filter` (AND/OR tree), as passed to
`queryWithFilter`. -/
inductive FsFilter where
  | cond : String → String → JsValue → FsFilter
  | andF : FsFilter → FsFilter → FsFilter
  | orF : FsFilter → FsFilter → FsFilter

/-- The `Query` object the wrapper builds before calling `.get()`:
collection path, accumulated where clauses, optional composite filter,
order-by, start-after cursor and limit. -/
structure BuiltQuery where
  collection : String
  wheres : List WhereFilter := []
  filter : Option FsFilter := none
  orderBy : Option (String × OrderDir) := none
  startAfter : Option DocSnapshot := none
  limit : Option Int := none

/-- The provider's database client, abstractly: fetch one document
snapshot, or run a built query for a list of snapshots. -/
structure Firestore where
  fetchDoc : String → String → DocSnapshot
  runQuery : BuiltQuery → List DocSnapshot

namespace firestoreService

/-- `snapshotToArray` (firestoreService.ts lines 56-61): map each snapshot
document to `{ ...doc.data(), id: doc.id }`. -/
def snapshotToArray (docs : List DocSnapshot) : List Obj :=
  docs.map (fun doc => asetKey doc.data "id" (.str doc.id))

/-- `firestoreService.get` (lines 116-123): `null` when the snapshot does
not exist, otherwise `{ ...snap.data(), id: snap.id }`. -/
def get (fs : Firestore) (collectionPath docId : String) : Option Obj :=
  let snap := fs.fetchDoc collectionPath docId
  if snap.docExists then some (asetKey snap.data "id" (.str snap.id)) else none

/-- `if (options.orderBy) query = query.orderBy(options.orderBy,
options.orderDirection ?? "asc")` — a falsy (empty) string leaves the
query unchanged. -/
def applyOrderBy (q : BuiltQuery) (orderBy : Option String)
    (orderDirection : Option OrderDir) : BuiltQuery :=
  match orderBy with
  | some f => if f ≠ "" then { q with orderBy := some (f, orderDirection.getD .asc) } else q
  | none => q

/-- `if (options.limit) query = query.limit(options.limit)` — a falsy
(zero) limit leaves the query unchanged. -/
def applyLimit (q : BuiltQuery) (limit : Option Int) : BuiltQuery :=
  match limit with
  | some n => if n ≠ 0 then { q with limit := some n } else q
  | none => q

/-- Query building of `firestoreService.list` (lines 134-157): start from
the collection, apply order-by, then resolve the pagination cursor —
throwing when the cursor document does not exist — then apply the limit. -/
def buildListQuery (fetchDoc : String → String → DocSnapshot)
    (collectionPath : String) (options : ListOptions) : Except String BuiltQuery :=
  let q := applyOrderBy { collection := collectionPath } options.orderBy options.orderDirection
  match options.startAfterDocId with
  | some docId =>
    if docId ≠ "" then
      let cursor := fetchDoc collectionPath docId
      if cursor.docExists then
        .ok (applyLimit { q with startAfter := some cursor } options.limit)
      else
        .error ("Invalid pagination cursor: document \"" ++ docId ++
          "\" does not exist in collection \"" ++ collectionPath ++ "\".")
    else .ok (applyLimit q options.limit)
  | none => .ok (applyLimit q options.limit)

/-- `firestoreService.list` (lines 134-161): build the query, run it, and
convert the snapshot; a missing pagination cursor propagates as a thrown
error before any query is issued. -/
def list (fs : Firestore) (collectionPath : String) (options : ListOptions) :
    Except String (List Obj) :=
  match buildListQuery fs.fetchDoc collectionPath options with
  | .error e => .error e
  | .ok q => .ok (snapshotToArray (fs.runQuery q))

/-- Query building of `firestoreService.query` (lines 167-188): chain the
where clauses, then order-by, then limit. -/
def buildWhereQuery (collectionPath : String) (filters : List WhereFilter)
    (options : ListOptions) : BuiltQuery :=
  let q := applyOrderBy { collection := collectionPath, wheres := filters }
    options.orderBy options.orderDirection
  applyLimit q options.limit

/-- `firestoreService.query` (lines 167-188). -/
def query (fs : Firestore) (collectionPath : String) (filters : List WhereFilter)
    (options : ListOptions) : List Obj :=
  snapshotToArray (fs.runQuery (buildWhereQuery collectionPath filters options))

/-- Query building of `firestoreService.queryWithFilter` (lines 193-210):
apply the composite filter, then order-by, then limit. -/
def buildFilterQuery (collectionPath : String) (filter : FsFilter)
    (options : ListOptions) : BuiltQuery :=
  let q := applyOrderBy { collection := collectionPath, filter := some filter }
    options.orderBy options.orderDirection
  applyLimit q options.limit

/-- `firestoreService.queryWithFilter` (lines 193-210). -/
def queryWithFilter (fs : Firestore) (collectionPath : String) (filter : FsFilter)
    (options : ListOptions) : List Obj :=
  snapshotToArray (fs.runQuery (buildFilterQuery collectionPath filter options))

/-- `firestoreService.listSubcollection` (lines 280-288): `list` on the
path `collection/doc/subcollection`. -/
def listSubcollection (fs : Firestore) (collectionPath docId subcollectionName : String)
    (options : ListOptions) : Except String (List Obj) :=
  list fs (collectionPath ++ "/" ++ docId ++ "/" ++ subcollectionName) options

end firestoreService

/-!
## Claims
-/

/-- Claim C1: for every incoming request, `requireAuth` responds 401 without
invoking the downstream handler when the Authorization header is absent or
does not start with `"Bearer "` (body `{error: "No authentication token
provided"}`) or when the provider's token verification throws (body
`{error: "Invalid or expired authentication token"}`); when verification
succeeds it sets `req.user` to the decoded token claims and calls `next`
exactly once. -/
theorem requireAuth_spec (verify : String → Option DecodedIdToken) (req : Request) :
    ((req.authorization = none ∨
        (∃ hdr, req.authorization = some hdr ∧ jsStartsWith hdr "Bearer " = false)) →
      requireAuth verify req = .respond 401 "No authentication token provided") ∧
    (∀ hdr, req.authorization = some hdr → jsStartsWith hdr "Bearer " = true →
      verify (bearerToken hdr) = none →
      requireAuth verify req = .respond 401 "Invalid or expired authentication token") ∧
    (∀ hdr decoded, req.authorization = some hdr → jsStartsWith hdr "Bearer " = true →
      verify (bearerToken hdr) = some decoded →
      requireAuth verify req = .proceed { req with user := some decoded }) := by
  refine ⟨?_, ?_, ?_⟩
  · rintro (hnone | ⟨hdr, hsome, hbad⟩)
    · simp [requireAuth, hnone, AuthError.NO_TOKEN_PROVIDED]
    · simp [requireAuth, hsome, hbad, AuthError.NO_TOKEN_PROVIDED]
  · intro hdr hsome hok hv
    simp [requireAuth, hsome, hok, hv, AuthError.INVALID_TOKEN]
  · intro hdr decoded hsome hok hv
    simp [requireAuth, hsome, hok, hv]

/-- Witness for C1: the three behaviours of `requireAuth` on concrete
requests (no header; a bearer header the oracle rejects; a bearer header the
oracle accepts, with the decoded claims copied onto the request). -/
theorem requireAuth_spec_witness :
    requireAuth (fun _ => none) { authorization := none, user := none } =
      .respond 401 "No authentication token provided" ∧
    requireAuth (fun _ => none) { authorization := some "Bearer tok", user := none } =
      .respond 401 "Invalid or expired authentication token" ∧
    requireAuth (fun _ => some ⟨"u1", [("admin", .bool true)]⟩)
        { authorization := some "Bearer tok", user := none } =
      .proceed { authorization := some "Bearer tok",
                 user := some ⟨"u1", [("admin", .bool true)]⟩ } :=
  ⟨(requireAuth_spec (fun _ => none) { authorization := none, user := none }).1
      (Or.inl rfl),
   (requireAuth_spec (fun _ => none) { authorization := some "Bearer tok", user := none }).2.1
      "Bearer tok" rfl (by decide) rfl,
   (requireAuth_spec (fun _ => some ⟨"u1", [("admin", .bool true)]⟩)
      { authorization := some "Bearer tok", user := none }).2.2
      "Bearer tok" ⟨"u1", [("admin", .bool true)]⟩ rfl (by decide) rfl⟩

/-- Claim C4: `requireRole(role)` responds 403 with body `{error: "You are
not authorized to perform this action"}` and does not call `next` whenever
`req.user` is undefined or the named claim on `req.user` is not truthy;
when the claim is truthy it calls `next` without writing a response. -/
theorem requireRole_spec (role : String) (req : Request) :
    ((req.user = none ∨ truthy (userClaim req.user role) = false) →
      requireRole role req =
        .respond 403 "You are not authorized to perform this action") ∧
    (truthy (userClaim req.user role) = true → requireRole role req = .proceed req) := by
  constructor
  · rintro (hnone | hfalse)
    · simp [requireRole, hnone, userClaim, truthy, AuthError.UNAUTHORIZED]
    · simp [requireRole, hfalse, AuthError.UNAUTHORIZED]
  · intro htrue
    simp [requireRole, htrue]

/-- Witness for C4: a request with no user gets the 403, and a user with a
truthy "admin" claim passes through. -/
theorem requireRole_spec_witness :
    requireRole "admin" { authorization := none, user := none } =
      .respond 403 "You are not authorized to perform this action" ∧
    requireRole "admin"
        { authorization := none, user := some ⟨"u1", [("admin", .bool true)]⟩ } =
      .proceed { authorization := none, user := some ⟨"u1", [("admin", .bool true)]⟩ } :=
  ⟨(requireRole_spec "admin" { authorization := none, user := none }).1 (Or.inl rfl),
   (requireRole_spec "admin"
      { authorization := none, user := some ⟨"u1", [("admin", .bool true)]⟩ }).2 (by decide)⟩

/-- Running `requireAuth` then `requireRole("admin")` ends in exactly one of
three ways: the controller runs on a request whose user is the decoded
token with a truthy admin claim, or a 401 from `requireAuth`, or a 403 from
`requireRole`. -/
theorem runChain_adminChain (verify : String → Option DecodedIdToken) (req : Request) :
    (∃ u, runChain [requireAuth verify, requireRole "admin"] req =
        .controllerRun { req with user := some u } ∧
      truthy (userClaim (some u) "admin") = true) ∨
    (∃ b, runChain [requireAuth verify, requireRole "admin"] req = .errorResponse 401 b) ∨
    (∃ b, runChain [requireAuth verify, requireRole "admin"] req = .errorResponse 403 b) := by
  cases hauth : req.authorization with
  | none =>
    refine Or.inr (Or.inl ⟨AuthError.NO_TOKEN_PROVIDED.message, ?_⟩)
    simp [runChain, requireAuth, hauth]
  | some hdr =>
    by_cases hs : jsStartsWith hdr "Bearer " = true
    · cases hv : verify (bearerToken hdr) with
      | none =>
        refine Or.inr (Or.inl ⟨AuthError.INVALID_TOKEN.message, ?_⟩)
        simp [runChain, requireAuth, hauth, hs, hv, AuthError.INVALID_TOKEN]
      | some decoded =>
        by_cases hadm : truthy (userClaim (some decoded) "admin") = true
        · refine Or.inl ⟨decoded, ?_, hadm⟩
          simp [runChain, requireAuth, hauth, hs, hv, requireRole, hadm]
        · refine Or.inr (Or.inr ⟨AuthError.UNAUTHORIZED.message, ?_⟩)
          simp [runChain, requireAuth, hauth, hs, hv, requireRole, hadm,
            AuthError.UNAUTHORIZED]
    · refine Or.inr (Or.inl ⟨AuthError.NO_TOKEN_PROVIDED.message, ?_⟩)
      simp [runChain, requireAuth, hauth, hs]

/-- Claim C2: every route mounted under `/auth` other than
`POST /auth/session` and `GET /auth/me` never executes its controller
unless `requireAuth` succeeded and the decoded token carried by `req.user`
has a truthy "admin" claim; otherwise the request is answered with 401 or
403 before reaching the controller. -/
theorem authRouter_admin_gated (verify : String → Option DecodedIdToken)
    (req : Request) (r : Route) (hmem : r ∈ authRouter verify)
    (h1 : r.controller ≠ .createSession) (h2 : r.controller ≠ .getMe) :
    (∀ req2, runChain r.chain req = .controllerRun req2 →
      ∃ u, req2.user = some u ∧ truthy (userClaim (some u) "admin") = true) ∧
    (∀ s b, runChain r.chain req = .errorResponse s b → s = 401 ∨ s = 403) := by
  have hchain : r.chain = [requireAuth verify, requireRole "admin"] := by
    simp only [authRouter, List.mem_cons, List.not_mem_nil, or_false] at hmem
    rcases hmem with h | h | h | h | h | h | h | h | h
    · exact absurd (by rw [h]) h1
    · exact absurd (by rw [h]) h2
    all_goals rw [h]
  rw [hchain]
  rcases runChain_adminChain verify req with ⟨u, hrun, hadm⟩ | ⟨b, herr⟩ | ⟨b, herr⟩
  · constructor
    · intro req2 h2run
      rw [hrun] at h2run
      obtain rfl := RouteOutcome.controllerRun.inj h2run.symm
      exact ⟨u, rfl, hadm⟩
    · intro s b herr
      rw [hrun] at herr
      exact absurd herr (by simp)
  · constructor
    · intro req2 h2run
      rw [herr] at h2run
      exact absurd h2run (by simp)
    · intro s b' herr'
      rw [herr] at herr'
      obtain ⟨rfl, rfl⟩ := And.intro (RouteOutcome.errorResponse.inj herr'.symm).1
        (RouteOutcome.errorResponse.inj herr'.symm).2
      exact Or.inl rfl
  · constructor
    · intro req2 h2run
      rw [herr] at h2run
      exact absurd h2run (by simp)
    · intro s b' herr'
      rw [herr] at herr'
      obtain ⟨rfl, rfl⟩ := And.intro (RouteOutcome.errorResponse.inj herr'.symm).1
        (RouteOutcome.errorResponse.inj herr'.symm).2
      exact Or.inr rfl

/-- A verification oracle accepting every token as an admin user, used by
the C2 witness. -/
def adminVerify : String → Option DecodedIdToken :=
  fun _ => some ⟨"u1", [("admin", .bool true)]⟩

/-- The `GET /auth/users` route as mounted by the router. -/
def usersRoute : Route :=
  ⟨"GET", "/users", [requireAuth adminVerify, requireRole "admin"], .listUsers⟩

/-- Witness for C2: on the concrete `GET /auth/users` route with an
accepted admin token, the controller-run outcome forces a truthy admin
claim on `req.user`. -/
theorem authRouter_admin_gated_witness :
    ∃ u, ({ authorization := some "Bearer tok",
            user := some ⟨"u1", [("admin", .bool true)]⟩ } : Request).user = some u ∧
      truthy (userClaim (some u) "admin") = true :=
  (authRouter_admin_gated adminVerify
      { authorization := some "Bearer tok", user := none } usersRoute
      (List.mem_cons_of_mem _ (List.mem_cons_of_mem _ (List.mem_cons_self _ _)))
      (by decide) (by decide)).1
    { authorization := some "Bearer tok", user := some ⟨"u1", [("admin", .bool true)]⟩ }
    (by rfl)

/-- Claim C3: in `createUser`, a provider error with code
"auth/email-already-exists" maps to `USER_ALREADY_EXISTS` (HTTP 409),
"auth/invalid-email" to `INVALID_EMAIL` (HTTP 400), "auth/weak-password"
to `WEAK_PASSWORD` (HTTP 400); every provider error with any other code
yields a generic 500 with body `{error: "Failed to create user"}`. -/
theorem createUser_error_mapping (email password : JsValue)
    (he : truthy email = true) (hp : truthy password = true) :
    (authController.createUser email password (.failure (some "auth/email-already-exists")) =
      (.errorJson AuthError.USER_ALREADY_EXISTS.status AuthError.USER_ALREADY_EXISTS.message, true) ∧
      AuthError.USER_ALREADY_EXISTS.status = 409) ∧
    (authController.createUser email password (.failure (some "auth/invalid-email")) =
      (.errorJson AuthError.INVALID_EMAIL.status AuthError.INVALID_EMAIL.message, true) ∧
      AuthError.INVALID_EMAIL.status = 400) ∧
    (authController.createUser email password (.failure (some "auth/weak-password")) =
      (.errorJson AuthError.WEAK_PASSWORD.status AuthError.WEAK_PASSWORD.message, true) ∧
      AuthError.WEAK_PASSWORD.status = 400) ∧
    (∀ code : Option String,
      code ≠ some "auth/email-already-exists" → code ≠ some "auth/invalid-email" →
      code ≠ some "auth/weak-password" →
      authController.createUser email password (.failure code) =
        (.errorJson 500 "Failed to create user", true)) := by
  refine ⟨⟨?_, rfl⟩, ⟨?_, rfl⟩, ⟨?_, rfl⟩, ?_⟩
  · simp [authController.createUser, he, hp]
  · simp [authController.createUser, he, hp]
  · simp [authController.createUser, he, hp]
  · intro code hc1 hc2 hc3
    simp [authController.createUser, he, hp, hc1, hc2, hc3]

/-- Witness for C3: concrete truthy credentials, the three mapped codes
and one unmatched code. -/
theorem createUser_error_mapping_witness :
    authController.createUser (.str "a@b.c") (.str "secret123")
        (.failure (some "auth/email-already-exists")) =
      (.errorJson 409 "A user with this email already exists", true) ∧
    authController.createUser (.str "a@b.c") (.str "secret123")
        (.failure (some "auth/something-else")) =
      (.errorJson 500 "Failed to create user", true) :=
  ⟨((createUser_error_mapping (.str "a@b.c") (.str "secret123")
      (by decide) (by decide)).1.1),
   ((createUser_error_mapping (.str "a@b.c") (.str "secret123")
      (by decide) (by decide)).2.2.2 (some "auth/something-else")
      (by decide) (by decide) (by decide))⟩

/-- Claim C7: a POST /auth/user body missing email or missing password gets
400 `{error: "Email and password are required"}` from `createUser` and the
provider's user-creation API is never called; likewise `setCustomClaims`
responds 400 `{error: "Claims must be a valid object"}` when the body's
claims field is absent or not an object, without calling the provider. -/
theorem input_presence_checks (email password claims : JsValue)
    (providerC : CreateOutcome) (providerS : ClaimsOutcome) :
    ((email = .undefined ∨ password = .undefined) →
      authController.createUser email password providerC =
        (.errorJson 400 "Email and password are required", false)) ∧
    ((claims = .undefined ∨ jsTypeof claims ≠ "object") →
      authController.setCustomClaims claims providerS =
        (.errorJson 400 "Claims must be a valid object", false)) := by
  constructor
  · rintro (rfl | rfl)
    · simp [authController.createUser, truthy]
    · simp [authController.createUser, truthy]
  · rintro (rfl | hne)
    · simp [authController.setCustomClaims, truthy]
    · simp [authController.setCustomClaims, bne_iff_ne, hne]

/-- Witness for C7: a body with only a password, and a claims field that
is a string instead of an object. -/
theorem input_presence_checks_witness :
    authController.createUser .undefined (.str "secret123") (.failure none) =
      (.errorJson 400 "Email and password are required", false) ∧
    authController.setCustomClaims (.str "admin") .fulfilled =
      (.errorJson 400 "Claims must be a valid object", false) :=
  ⟨(input_presence_checks .undefined (.str "secret123") (.str "x")
      (.failure none) .fulfilled).1 (Or.inl rfl),
   (input_presence_checks .undefined (.str "secret123") (.str "admin")
      (.failure none) .fulfilled).2 (Or.inr (by decide))⟩

/-- Claim C8: in `createSession`, when the body's `expiresIn` is not of
number type the duration passed to the provider's session-cookie creation
is the default of 5 days (432000000 ms); when it is a number it is passed
through unchanged; and any failure of the provider call yields 401 with
the invalid-token message. -/
theorem createSession_duration (idToken expiresIn : JsValue)
    (provider : Int → SessionOutcome) (ht : truthy idToken = true) :
    (∀ n : Int, expiresIn = .num n →
      (authController.createSession idToken expiresIn provider).2 = some n) ∧
    (jsTypeof expiresIn ≠ "number" →
      (authController.createSession idToken expiresIn provider).2 = some 432000000) ∧
    (∀ d : Int, (authController.createSession idToken expiresIn provider).2 = some d →
      provider d = .rejected →
      (authController.createSession idToken expiresIn provider).1 =
        .errorJson 401 "Invalid or expired authentication token") := by
  refine ⟨?_, ?_, ?_⟩
  · rintro n rfl
    simp only [authController.createSession, ht, Bool.not_true, Bool.false_or]
    have hn : authController.sessionDuration (.num n) = n := rfl
    rw [hn]
    cases provider n <;> simp
  · intro hnn
    have hd : authController.sessionDuration expiresIn = 432000000 := by
      cases expiresIn <;>
        first
          | rfl
          | exact absurd rfl hnn
    simp only [authController.createSession, ht, Bool.not_true, Bool.false_or]
    rw [hd]
    cases provider 432000000 <;> simp
  · intro d hd hrej
    simp only [authController.createSession, ht, Bool.not_true, Bool.false_or] at hd ⊢
    cases hp : provider (authController.sessionDuration expiresIn) with
    | ok c =>
      rw [hp] at hd
      simp only at hd
      obtain rfl := Option.some.inj hd
      rw [hp] at hrej
      exact absurd hrej (by simp)
    | rejected =>
      simp [AuthError.INVALID_TOKEN]

/-- Witness for C8: a session request with a string `expiresIn` defaults to
432000000 ms, and a rejecting provider yields the 401 invalid-token body. -/
theorem createSession_duration_witness :
    (authController.createSession (.str "tok") (.str "soon") (fun _ => .rejected)).2 =
      some 432000000 ∧
    (authController.createSession (.str "tok") (.str "soon") (fun _ => .rejected)).1 =
      .errorJson 401 "Invalid or expired authentication token" :=
  ⟨(createSession_duration (.str "tok") (.str "soon") (fun _ => .rejected)
      (by decide)).2.1 (by decide),
   (createSession_duration (.str "tok") (.str "soon") (fun _ => .rejected)
      (by decide)).2.2 432000000
      ((createSession_duration (.str "tok") (.str "soon") (fun _ => .rejected)
        (by decide)).2.1 (by decide)) rfl⟩

/-- Claim C9: `mergeCustomClaims(uid, c)` writes back the union of the
user's existing custom claims and `c` — keys present in `c` take the new
values and every existing key not present in `c` keeps its previous value;
`setCustomClaims(uid, c)` replaces all existing claims with exactly `c`;
`clearCustomClaims` replaces them with the empty object. -/
theorem customClaims_merge_set_clear (store : AuthStore) (uid : String) (c : Obj)
    (u : UserRecord) (hnd : (c.map Prod.fst).Nodup)
    (hu : alookup store uid = some u) :
    (∃ store2, authService.mergeCustomClaims store uid c = some store2 ∧
      ∃ u2 m, alookup store2 uid = some u2 ∧ u2.customClaims = some m ∧
        (∀ k v, alookup c k = some v → alookup m k = some v) ∧
        (∀ k, alookup c k = none →
          alookup m k = alookup (u.customClaims.getD []) k)) ∧
    (∃ store2, authService.setCustomClaims store uid c = some store2 ∧
      alookup store2 uid = some ⟨some c⟩) ∧
    (∃ store2, authService.clearCustomClaims store uid = some store2 ∧
      alookup store2 uid = some ⟨some []⟩) := by
  refine ⟨?_, ?_, ?_⟩
  · refine ⟨asetKey store uid ⟨some (objSpread (u.customClaims.getD []) c)⟩, ?_, ?_⟩
    · simp [authService.mergeCustomClaims, hu]
    · refine ⟨⟨some (objSpread (u.customClaims.getD []) c)⟩,
        objSpread (u.customClaims.getD []) c, ?_, rfl, ?_, ?_⟩
      · simp [alookup_asetKey]
      · intro k v hk
        rw [alookup_objSpread _ _ _ hnd, hk]
      · intro k hk
        rw [alookup_objSpread _ _ _ hnd, hk]
  · exact ⟨asetKey store uid ⟨some c⟩,
      by simp [authService.setCustomClaims, hu], by simp [alookup_asetKey]⟩
  · exact ⟨asetKey store uid ⟨some []⟩,
      by simp [authService.clearCustomClaims, hu], by simp [alookup_asetKey]⟩

/-- Witness for C9: a one-user store where the existing claims hold
`admin: true, plan: "free"` and the merged object updates `plan` and adds
`beta`. -/
theorem customClaims_merge_set_clear_witness :
    (∃ store2, authService.mergeCustomClaims
        [("u1", ⟨some [("admin", .bool true), ("plan", .str "free")]⟩)] "u1"
        [("plan", .str "pro"), ("beta", .bool true)] = some store2 ∧
      ∃ u2 m, alookup store2 "u1" = some u2 ∧ u2.customClaims = some m ∧
        (∀ k v, alookup [("plan", JsValue.str "pro"), ("beta", JsValue.bool true)] k = some v →
          alookup m k = some v) ∧
        (∀ k, alookup [("plan", JsValue.str "pro"), ("beta", JsValue.bool true)] k = none →
          alookup m k =
            alookup ((⟨some [("admin", .bool true), ("plan", .str "free")]⟩ :
              UserRecord).customClaims.getD []) k)) ∧
    (∃ store2, authService.setCustomClaims
        [("u1", ⟨some [("admin", .bool true), ("plan", .str "free")]⟩)] "u1"
        [("plan", .str "pro"), ("beta", .bool true)] = some store2 ∧
      alookup store2 "u1" = some ⟨some [("plan", .str "pro"), ("beta", .bool true)]⟩) ∧
    (∃ store2, authService.clearCustomClaims
        [("u1", ⟨some [("admin", .bool true), ("plan", .str "free")]⟩)] "u1" = some store2 ∧
      alookup store2 "u1" = some ⟨some []⟩) :=
  customClaims_merge_set_clear
    [("u1", ⟨some [("admin", .bool true), ("plan", .str "free")]⟩)] "u1"
    [("plan", .str "pro"), ("beta", .bool true)]
    ⟨some [("admin", .bool true), ("plan", .str "free")]⟩
    (by decide) (by simp [alookup])

/-- The pass-through shape the data model asserts: the result's `id` field
is the document's ID, and every other field is exactly the provider's
document data. -/
def addsDocId (doc : DocSnapshot) (r : Obj) : Prop :=
  objLookup r "id" = some (.str doc.id) ∧
  ∀ k, k ≠ "id" → objLookup r k = objLookup doc.data k

theorem addsDocId_mk (doc : DocSnapshot) :
    addsDocId doc (asetKey doc.data "id" (.str doc.id)) := by
  constructor
  · simp [objLookup, alookup_asetKey]
  · intro k hk
    simp [objLookup, alookup_asetKey, hk]

theorem snapshotToArray_mem (docs : List DocSnapshot) (r : Obj)
    (hr : r ∈ firestoreService.snapshotToArray docs) :
    ∃ doc ∈ docs, addsDocId doc r := by
  simp only [firestoreService.snapshotToArray, List.mem_map] at hr
  obtain ⟨doc, hdoc, rfl⟩ := hr
  exact ⟨doc, hdoc, addsDocId_mk doc⟩

/-- Claim C5: `firestoreService.get` returns null exactly when the provider
reports the document missing, and otherwise returns the provider's document
data with an added `id` field equal to the document's ID; every element
returned by `list`, `query`, `queryWithFilter` and `listSubcollection` is
likewise the provider's document data with the `id` field added. -/
theorem firestore_passthrough (fs : Firestore) (collectionPath docId sub : String)
    (filters : List WhereFilter) (filter : FsFilter) (options : ListOptions) :
    (firestoreService.get fs collectionPath docId = none ↔
      (fs.fetchDoc collectionPath docId).docExists = false) ∧
    (∀ r, firestoreService.get fs collectionPath docId = some r →
      addsDocId (fs.fetchDoc collectionPath docId) r) ∧
    (∀ docs r, r ∈ firestoreService.snapshotToArray docs →
      ∃ doc ∈ docs, addsDocId doc r) ∧
    (∀ rs, firestoreService.list fs collectionPath options = .ok rs →
      ∀ r ∈ rs, ∃ doc, addsDocId doc r) ∧
    (∀ r ∈ firestoreService.query fs collectionPath filters options,
      ∃ doc, addsDocId doc r) ∧
    (∀ r ∈ firestoreService.queryWithFilter fs collectionPath filter options,
      ∃ doc, addsDocId doc r) ∧
    (∀ rs, firestoreService.listSubcollection fs collectionPath docId sub options = .ok rs →
      ∀ r ∈ rs, ∃ doc, addsDocId doc r) := by
  refine ⟨?_, ?_, ?_, ?_, ?_, ?_, ?_⟩
  · cases hex : (fs.fetchDoc collectionPath docId).docExists <;>
      simp [firestoreService.get, hex]
  · intro r hr
    cases hex : (fs.fetchDoc collectionPath docId).docExists with
    | false => simp [firestoreService.get, hex] at hr
    | true =>
      simp only [firestoreService.get, hex, if_true] at hr
      obtain rfl := Option.some.inj hr
      exact addsDocId_mk _
  · exact fun docs r hr => snapshotToArray_mem docs r hr
  · intro rs hrs r hr
    cases hb : firestoreService.buildListQuery fs.fetchDoc collectionPath options with
    | error e => simp [firestoreService.list, hb] at hrs
    | ok q =>
      simp only [firestoreService.list, hb] at hrs
      obtain rfl := Except.ok.inj hrs
      obtain ⟨doc, _, hdoc⟩ := snapshotToArray_mem _ r hr
      exact ⟨doc, hdoc⟩
  · intro r hr
    obtain ⟨doc, _, hdoc⟩ := snapshotToArray_mem _ r hr
    exact ⟨doc, hdoc⟩
  · intro r hr
    obtain ⟨doc, _, hdoc⟩ := snapshotToArray_mem _ r hr
    exact ⟨doc, hdoc⟩
  · intro rs hrs r hr
    cases hb : firestoreService.buildListQuery fs.fetchDoc
        (collectionPath ++ "/" ++ docId ++ "/" ++ sub) options with
    | error e =>
      simp [firestoreService.listSubcollection, firestoreService.list, hb] at hrs
    | ok q =>
      simp only [firestoreService.listSubcollection, firestoreService.list, hb] at hrs
      obtain rfl := Except.ok.inj hrs
      obtain ⟨doc, _, hdoc⟩ := snapshotToArray_mem _ r hr
      exact ⟨doc, hdoc⟩

/-- A one-document provider for the Firestore witnesses: every fetch finds
a document `d7` with one data field, every query returns that document. -/
def docFs : Firestore :=
  ⟨fun _ _ => ⟨"d7", true, [("title", .str "Dune")]⟩,
   fun _ => [⟨"d7", true, [("title", .str "Dune")]⟩]⟩

/-- Witness for C5: on the concrete provider `docFs`, `get` hits the
existing document and the result carries `id = "d7"` while preserving the
`title` field. -/
theorem firestore_passthrough_witness :
    addsDocId (docFs.fetchDoc "books" "d7")
      (asetKey (docFs.fetchDoc "books" "d7").data "id" (.str (docFs.fetchDoc "books" "d7").id)) :=
  (firestore_passthrough docFs "books" "d7" "chapters" [] (.cond "a" "==" .null) {}).2.1
    (asetKey (docFs.fetchDoc "books" "d7").data "id" (.str (docFs.fetchDoc "books" "d7").id))
    rfl

theorem applyLimit_startAfter (q : BuiltQuery) (l : Option Int) :
    (firestoreService.applyLimit q l).startAfter = q.startAfter := by
  cases l with
  | none => rfl
  | some n =>
    by_cases hn : n ≠ 0 <;> simp [firestoreService.applyLimit, hn]

theorem applyLimit_orderBy (q : BuiltQuery) (l : Option Int) :
    (firestoreService.applyLimit q l).orderBy = q.orderBy := by
  cases l with
  | none => rfl
  | some n =>
    by_cases hn : n ≠ 0 <;> simp [firestoreService.applyLimit, hn]

theorem applyLimit_limit (q : BuiltQuery) (l : Option Int) (n : Int)
    (hq : q.limit = none) (h : (firestoreService.applyLimit q l).limit = some n) :
    l = some n := by
  cases l with
  | none => rw [firestoreService.applyLimit, hq] at h; cases h
  | some m =>
    rw [firestoreService.applyLimit] at h
    by_cases hm : m ≠ 0
    · rw [if_pos hm] at h
      simp only at h
      obtain rfl := Option.some.inj h
      rfl
    · rw [if_neg hm] at h
      rw [hq] at h; cases h

theorem applyOrderBy_startAfter (q : BuiltQuery) (ob : Option String)
    (od : Option OrderDir) :
    (firestoreService.applyOrderBy q ob od).startAfter = q.startAfter := by
  cases ob with
  | none => rfl
  | some f =>
    by_cases hf : f ≠ "" <;> simp [firestoreService.applyOrderBy, hf]

theorem applyOrderBy_limit (q : BuiltQuery) (ob : Option String)
    (od : Option OrderDir) :
    (firestoreService.applyOrderBy q ob od).limit = q.limit := by
  cases ob with
  | none => rfl
  | some f =>
    by_cases hf : f ≠ "" <;> simp [firestoreService.applyOrderBy, hf]

/-- Claim C6: when `options.startAfterDocId` is set, `list` first checks
the cursor document: if it does not exist the call throws an
invalid-pagination-cursor error without issuing the query (the result is
the same error for every query engine), and if it exists the built query
starts after that document; order direction defaults to "asc" when
`orderBy` is given without a direction, and the limit is applied only when
provided. -/
theorem list_cursor_check (fs : Firestore) (path : String) (options : ListOptions) :
    (∀ cursorId, options.startAfterDocId = some cursorId → cursorId ≠ "" →
      (fs.fetchDoc path cursorId).docExists = false →
      ∀ fs2 : Firestore, fs2.fetchDoc = fs.fetchDoc →
        firestoreService.list fs2 path options =
          .error ("Invalid pagination cursor: document \"" ++ cursorId ++
            "\" does not exist in collection \"" ++ path ++ "\".")) ∧
    (∀ cursorId, options.startAfterDocId = some cursorId → cursorId ≠ "" →
      (fs.fetchDoc path cursorId).docExists = true →
      ∀ q, firestoreService.buildListQuery fs.fetchDoc path options = .ok q →
        q.startAfter = some (fs.fetchDoc path cursorId)) ∧
    (∀ f q, options.orderBy = some f → f ≠ "" → options.orderDirection = none →
      firestoreService.buildListQuery fs.fetchDoc path options = .ok q →
      q.orderBy = some (f, .asc)) ∧
    (∀ q n, firestoreService.buildListQuery fs.fetchDoc path options = .ok q →
      q.limit = some n → options.limit = some n) := by
  refine ⟨?_, ?_, ?_, ?_⟩
  · intro cursorId hc hne hex fs2 hfd
    simp [firestoreService.list, firestoreService.buildListQuery, hfd, hc, hne, hex]
  · intro cursorId hc hne hex q hq
    simp only [firestoreService.buildListQuery, hc, hne, ne_eq,
      not_false_iff, if_true, hex] at hq
    obtain rfl := Except.ok.inj hq
    rw [applyLimit_startAfter]
  · intro f q hf hfne hdir hq
    have hob : (firestoreService.applyOrderBy { collection := path }
        options.orderBy options.orderDirection).orderBy = some (f, .asc) := by
      rw [hf, hdir]
      simp [firestoreService.applyOrderBy, hfne]
    simp only [firestoreService.buildListQuery] at hq
    rcases hcs : options.startAfterDocId with _ | cursorId
    · simp only [hcs] at hq
      obtain rfl := Except.ok.inj hq
      rw [applyLimit_orderBy, hob]
    · by_cases hne : cursorId ≠ ""
      · cases hex : (fs.fetchDoc path cursorId).docExists with
        | false =>
          simp only [hcs, hne, ne_eq, not_false_iff, if_true, hex] at hq
          exact Except.noConfusion hq
        | true =>
          simp only [hcs, hne, ne_eq, not_false_iff, if_true, hex] at hq
          obtain rfl := Except.ok.inj hq
          rw [applyLimit_orderBy]
          exact hob
      · push_neg at hne
        subst hne
        simp only [hcs, ne_eq, not_true_eq_false, if_false, ite_false] at hq
        obtain rfl := Except.ok.inj hq
        rw [applyLimit_orderBy, hob]
  · intro q n hq hlim
    have hbase : (firestoreService.applyOrderBy { collection := path }
        options.orderBy options.orderDirection).limit = none :=
      applyOrderBy_limit _ _ _
    simp only [firestoreService.buildListQuery] at hq
    rcases hcs : options.startAfterDocId with _ | cursorId
    · simp only [hcs] at hq
      obtain rfl := Except.ok.inj hq
      exact applyLimit_limit _ _ _ hbase hlim
    · by_cases hne : cursorId ≠ ""
      · cases hex : (fs.fetchDoc path cursorId).docExists with
        | false =>
          simp only [hcs, hne, ne_eq, not_false_iff, if_true, hex] at hq
          exact Except.noConfusion hq
        | true =>
          simp only [hcs, hne, ne_eq, not_false_iff, if_true, hex] at hq
          obtain rfl := Except.ok.inj hq
          refine applyLimit_limit _ _ _ ?_ hlim
          exact hbase
      · push_neg at hne
        subst hne
        simp only [hcs, ne_eq, not_true_eq_false, if_false, ite_false] at hq
        obtain rfl := Except.ok.inj hq
        exact applyLimit_limit _ _ _ hbase hlim

/-- A provider whose fetches all report a missing document, for the C6
witness. -/
def missingFs : Firestore :=
  ⟨fun _ _ => ⟨"gone", false, []⟩, fun _ => []⟩

/-- Witness for C6: a list call paginated after a nonexistent document
throws the invalid-cursor error. -/
theorem list_cursor_check_witness :
    firestoreService.list missingFs "books"
        { startAfterDocId := some "gone" } =
      .error ("Invalid pagination cursor: document \"" ++ "gone" ++
        "\" does not exist in collection \"" ++ "books" ++ "\".") :=
  (list_cursor_check missingFs "books" { startAfterDocId := some "gone" }).1
    "gone" rfl (by decide) rfl missingFs rfl

/-- Claim C10: in every document returned by `firestoreService.get` and by
`snapshotToArray` (hence `list`, `query`, `queryWithFilter`,
`listSubcollection`), the `id` field equals the Firestore document ID even
when the stored document data itself contains a field named "id" with a
different value, because the injected `id` is written after the spread
data. -/
theorem id_field_overrides (fs : Firestore) (collectionPath docId : String)
    (docs : List DocSnapshot) (v : JsValue) :
    ((fs.fetchDoc collectionPath docId).docExists = true →
      objLookup (fs.fetchDoc collectionPath docId).data "id" = some v →
      ∃ r, firestoreService.get fs collectionPath docId = some r ∧
        objLookup r "id" = some (.str (fs.fetchDoc collectionPath docId).id)) ∧
    (∀ (i : Nat) (doc : DocSnapshot), docs[i]? = some doc →
      ∃ r, (firestoreService.snapshotToArray docs)[i]? = some r ∧
        objLookup r "id" = some (.str doc.id)) := by
  constructor
  · intro hex _
    refine ⟨asetKey (fs.fetchDoc collectionPath docId).data "id"
        (.str (fs.fetchDoc collectionPath docId).id), ?_, ?_⟩
    · simp [firestoreService.get, hex]
    · simp [objLookup, alookup_asetKey]
  · intro i doc hdoc
    refine ⟨asetKey doc.data "id" (.str doc.id), ?_, ?_⟩
    · simp [firestoreService.snapshotToArray, List.getElem?_map, hdoc]
    · simp [objLookup, alookup_asetKey]

/-- A provider whose stored document data already contains an `id` field
with a conflicting value, for the C10 witness. -/
def sneakyFs : Firestore :=
  ⟨fun _ _ => ⟨"real", true, [("id", .str "sneaky")]⟩, fun _ => []⟩

/-- Witness for C10: the document data claims `id = "sneaky"`, yet the
returned object's `id` is the document ID `"real"`. -/
theorem id_field_overrides_witness :
    ∃ r, firestoreService.get sneakyFs "c" "real" = some r ∧
      objLookup r "id" = some (.str (sneakyFs.fetchDoc "c" "real").id) :=
  (id_field_overrides sneakyFs "c" "real" [] (.str "sneaky")).1 rfl rfl

end Framestack
